import Mathlib

/-!
selenoid: request guards (package ensure) and container lifecycle (package service).

A shallow embedding of `ensure/ensure.go` and `service/docker.go`.

* Effects are made explicit.  A response writer is the list of calls made on it;
  a run against the container runtime yields the list of runtime calls it issued.
* The container runtime, `nat.NewPort`, `url.Parse` and the package-level
  readiness waiter `wait` are not part of the two source files; they are
  parameters of the model.
* Output of `log` and `fmt.Print*` (stderr/stdout) is not part of the modelled state.
-/

namespace Selenoid

/-- Go `error` values, identified by their message. -/
abbrev Error := String

/-! ## package ensure -/

namespace ensure

/-- One call made on an `http.ResponseWriter`. -/
inductive WriterCall where
  | setHeader (key value : String)
  | writeHeader (code : Nat)
  | write (data : String)
deriving DecidableEq, Repr

/-- An `http.ResponseWriter`: whether its dynamic type also implements
`http.CloseNotifier`, and the calls made on it so far. -/
structure ResponseWriter where
  IsCloseNotifier : Bool
  Calls : List WriterCall
deriving DecidableEq, Repr

/-- The part of `*http.Request` mentioned by the guards. -/
structure Request where
  Method : String
  Path : String
deriving DecidableEq, Repr

/-- An `http.HandlerFunc`.  A handler acts on the response writer and on whatever
else it can reach (a state of type `σ`). -/
abbrev HandlerFunc (σ : Type) := ResponseWriter → Request → σ → ResponseWriter × σ

/-- Go `http.MethodPost`. -/
def MethodPost : String := "POST"

/-- Go `http.StatusInternalServerError`. -/
def StatusInternalServerError : Nat := 500

/-- Go `http.StatusMethodNotAllowed`. -/
def StatusMethodNotAllowed : Nat := 405

/-- Go `http.Error` of the standard library: two header fields, the status
line, then the message followed by a newline (`fmt.Fprintln`). -/
def httpError (w : ResponseWriter) (error : String) (code : Nat) : ResponseWriter :=
  { w with Calls := w.Calls ++
      [ WriterCall.setHeader "Content-Type" "text/plain; charset=utf-8",
        WriterCall.setHeader "X-Content-Type-Options" "nosniff",
        WriterCall.writeHeader code,
        WriterCall.write (error ++ "\n") ] }

/-- The function `CloseNotifier` of ensure.go, lines 8-17. -/
def CloseNotifier {σ : Type} (next : HandlerFunc σ) : HandlerFunc σ :=
  fun w r s =>
    let ok := w.IsCloseNotifier
    if !ok then
      (httpError w "unable to handle client close notifications" StatusInternalServerError, s)
    else
      next w r s

/-- The function `Post` of ensure.go, lines 19-29. -/
def Post {σ : Type} (next : HandlerFunc σ) : HandlerFunc σ :=
  fun w r s =>
    if r.Method ≠ MethodPost then
      (httpError w "Method not allowed" StatusMethodNotAllowed, s)
    else
      next w r s

/-! ### Sample values for concrete runs -/

/-- An inner handler that leaves the writer alone and counts its own invocations. -/
def countingHandler : HandlerFunc Nat :=
  fun w _ n => (w, n + 1)

/-- A fresh writer that supports close notifications. -/
def notifyingWriter : ResponseWriter := ⟨true, []⟩

/-- A fresh writer that does not support close notifications. -/
def plainWriter : ResponseWriter := ⟨false, []⟩

end ensure

/-! ## package service -/

namespace service

/-- A generically typed configuration value (Go `interface{}` filled by the JSON decoder). -/
inductive Dyn where
  | null
  | bool (b : Bool)
  | num (n : Int)
  | str (s : String)
deriving DecidableEq, Repr

/-- Modelled from the spec: the declaration of `config.Browser` is not among the
source files.  `Image`, `Port` and `Path` are the fields docker.go reads
(`Image` through an unchecked conversion to string); `ShmSize` and `Privileged`
are the optional extra runtime constraints the spec gives a service
specification (shared-memory size, privilege level). -/
structure Browser where
  Image : Dyn
  Port : String
  Path : String
  ShmSize : Int
  Privileged : Bool
deriving DecidableEq, Repr

/-- Go `nat.Port`, a string such as `4444/tcp`. -/
abbrev Port := String

/-- Go `nat.PortBinding`. -/
structure PortBinding where
  HostIP : String
  HostPort : String
deriving DecidableEq, Repr

/-- Go `nat.PortMap` (`map[Port][]PortBinding`), as an association list. -/
abbrev PortMap := List (Port × List PortBinding)

/-- Go `nat.PortSet` (`map[Port]struct{}`), as the list of its keys. -/
abbrev PortSet := List Port

/-- The fields of `container.Config` that docker.go sets; all others keep their zero value. -/
structure Config where
  Hostname : String
  Image : String
  ExposedPorts : PortSet
deriving DecidableEq, Repr

/-- The fields of `container.HostConfig` that docker.go sets; all others keep their zero value. -/
structure HostConfig where
  AutoRemove : Bool
  PortBindings : PortMap
  ShmSize : Int
  Privileged : Bool
deriving DecidableEq, Repr

/-- Go `network.NetworkingConfig`: endpoint settings by network name. -/
structure NetworkingConfig where
  EndpointsConfig : List (String × String)
deriving DecidableEq, Repr

/-- Go `types.ContainerCreateResponse`. -/
structure ContainerCreateResponse where
  ID : String
  Warnings : List String
deriving DecidableEq, Repr

/-- Go `types.ContainerRemoveOptions`. -/
structure ContainerRemoveOptions where
  RemoveVolumes : Bool
  RemoveLinks : Bool
  Force : Bool
deriving DecidableEq, Repr

/-- The part of `types.NetworkSettings` docker.go reads. -/
structure NetworkSettings where
  Ports : PortMap
deriving DecidableEq, Repr

/-- The part of `types.ContainerJSON` docker.go reads; `NetworkSettings` is a pointer. -/
structure ContainerJSON where
  NetworkSettings : Option NetworkSettings
deriving DecidableEq, Repr

/-- The fields of `url.URL` a parsed session address fills. -/
structure URL where
  Scheme : String
  Host : String
  Path : String
deriving DecidableEq, Repr

/-- Go `time.Duration`, in nanoseconds. -/
abbrev Duration := Int

/-- Go `time.Second`. -/
def Second : Duration := 1000000000

/-- The methods of `*client.Client` (docker engine API) that docker.go calls,
each with the answer the runtime gives. -/
structure Client where
  ContainerCreate : Config → HostConfig → NetworkingConfig → String → Except Error ContainerCreateResponse
  ContainerStart : String → Option Error
  ContainerInspect : String → Except Error ContainerJSON
  ContainerStop : String → Option Duration → Option Error
  ContainerWait : String → Except Error Int
  ContainerRemove : String → ContainerRemoveOptions → Option Error

/-- Functions docker.go calls that are defined outside it: `nat.NewPort`
(go-connections), the readiness waiter `wait` of package service, and
`url.Parse` (standard library; `none` stands for a parse error). -/
structure Deps where
  NewPort : String → String → Except Error Port
  wait : String → Duration → Option Error
  Parse : String → Option URL

/-- The struct `Docker` of docker.go, lines 19-22. -/
structure Docker where
  Client : Client
  Service : Browser

/-- One call that leaves the process: a container runtime request or a
readiness wait on an address.  The context argument (always
`context.Background()`) and the options of `ContainerStart` (always the empty
`types.ContainerStartOptions{}`) are left out. -/
inductive Call where
  | ContainerCreate (config : Config) (hostConfig : HostConfig)
      (networkingConfig : NetworkingConfig) (containerName : String)
  | ContainerStart (id : String)
  | ContainerInspect (id : String)
  | wait (u : String) (t : Duration)
  | ContainerStop (id : String) (timeout : Option Duration)
  | ContainerWait (id : String)
  | ContainerRemove (id : String) (options : ContainerRemoveOptions)
deriving DecidableEq, Repr

/-- The function `stop` of docker.go, lines 92-107: the runtime calls it issues.
It returns no value. -/
def stop (cli : Client) (id : String) : List Call :=
  match cli.ContainerStop id none with
  | some _ => [Call.ContainerStop id none]
  | none =>
    let _ := cli.ContainerWait id
    match cli.ContainerRemove id ⟨false, false, true⟩ with
    | some _ =>
      [Call.ContainerStop id none, Call.ContainerWait id,
       Call.ContainerRemove id ⟨false, false, true⟩]
    | none =>
      [Call.ContainerStop id none, Call.ContainerWait id,
       Call.ContainerRemove id ⟨false, false, true⟩]

/-- The closure `func() { stop(ctx, docker.Client, resp.ID) }` of docker.go, line 89,
with the two values it captures. -/
structure Cancel where
  Client : Client
  ID : String

/-- Calling the closure. -/
def Cancel.call (c : Cancel) : List Call :=
  stop c.Client c.ID

/-- How a call of `StartWithCancel` ends: it returns its three results
(a nil pointer, a nil func and a nil error are `none`), or it panics. -/
inductive Outcome where
  | ret (u : Option URL) (cancel : Option Cancel) (err : Option Error)
  | panic (msg : String)

/-- The method `Docker.StartWithCancel` of docker.go, lines 24-90: how the call
ends and the calls it issued, in order. -/
def StartWithCancel (deps : Deps) (docker : Docker) : Outcome × List Call :=
  match deps.NewPort "tcp" docker.Service.Port with
  | .error err => (.ret none none (some err), [])
  | .ok port =>
    match docker.Service.Image with
    | .str image =>
      let config : Config :=
        { Hostname := "localhost", Image := image, ExposedPorts := [port] }
      let hostConfig : HostConfig :=
        { AutoRemove := true
          PortBindings := [(port, [{ HostIP := "127.0.0.1", HostPort := "" }])]
          ShmSize := 268435456
          Privileged := true }
      let create := Call.ContainerCreate config hostConfig ⟨[]⟩ ""
      match docker.Client.ContainerCreate config hostConfig ⟨[]⟩ "" with
      | .error err => (.ret none none (some err), [create])
      | .ok resp =>
        match docker.Client.ContainerStart resp.ID with
        | some err => (.ret none none (some err), [create, .ContainerStart resp.ID])
        | none =>
          let tr := [create, .ContainerStart resp.ID, .ContainerInspect resp.ID]
          match docker.Client.ContainerInspect resp.ID with
          | .error err => (.ret none none (some err), tr)
          | .ok stat =>
            match stat.NetworkSettings with
            | none => (.panic "invalid memory address or nil pointer dereference", tr)
            | some settings =>
              match settings.Ports.lookup port with
              | none =>
                (.ret none none (some ("no bingings available for " ++ port ++ "...\n")), tr)
              | some bindings =>
                if bindings.length ≠ 1 then
                  (.ret none none (some "error: wrong number of port bindings"), tr)
                else
                  match bindings[0]? with
                  | none => (.panic "index out of range", tr)
                  | some addr =>
                    let host := "http://" ++ addr.HostIP ++ ":" ++ addr.HostPort
                      ++ docker.Service.Path
                    match deps.wait host (10 * Second) with
                    | some err => (.ret none none (some err), tr ++ [.wait host (10 * Second)])
                    | none =>
                      let u := deps.Parse host
                      (.ret u (some ⟨docker.Client, resp.ID⟩) none,
                       tr ++ [.wait host (10 * Second)])
    | _ => (.panic "interface conversion: interface is not string", [])

/-! ### Vocabulary for statements about runs -/

/-- Whether a call is a create request. -/
def Call.isCreate : Call → Bool
  | .ContainerCreate _ _ _ _ => true
  | _ => false

/-- The container configuration of docker.go, lines 32-36, for a string image
and a resolved port. -/
def createConfig (image : String) (port : Port) : Config :=
  { Hostname := "localhost", Image := image, ExposedPorts := [port] }

/-- The host configuration of docker.go, lines 37-44, for a resolved port. -/
def createHostConfig (port : Port) : HostConfig :=
  { AutoRemove := true
    PortBindings := [(port, [{ HostIP := "127.0.0.1", HostPort := "" }])]
    ShmSize := 268435456
    Privileged := true }

/-- The create request of docker.go, lines 31-45, for a string image and a
resolved port. -/
def createCall (image : String) (port : Port) : Call :=
  Call.ContainerCreate (createConfig image port) (createHostConfig port)
    { EndpointsConfig := [] } ""

/-! ### Sample values for concrete runs -/

/-- A `nat.NewPort` double: it resolves the port string `4444` and fails on any other. -/
def sampleNewPort : String → String → Except Error Port :=
  fun proto port => if port = "4444" then .ok (port ++ "/" ++ proto) else .error "invalid port"

/-- A runtime double: create answers with container `c1`, inspect reports the
given port map, stop answers with `stopErr`; every other call succeeds. -/
def sampleClient (ports : PortMap) (stopErr : Option Error) : Client where
  ContainerCreate := fun _ _ _ _ => .ok ⟨"c1", []⟩
  ContainerStart := fun _ => none
  ContainerInspect := fun _ => .ok ⟨some ⟨ports⟩⟩
  ContainerStop := fun _ _ => stopErr
  ContainerWait := fun _ => .ok 0
  ContainerRemove := fun _ _ => none

/-- A runtime double that refuses to create a container. -/
def refusingClient : Client where
  ContainerCreate := fun _ _ _ _ => .error "No such image"
  ContainerStart := fun _ => none
  ContainerInspect := fun _ => .ok ⟨some ⟨[]⟩⟩
  ContainerStop := fun _ _ => none
  ContainerWait := fun _ => .ok 0
  ContainerRemove := fun _ _ => none

/-- Doubles for the outside functions: the waiter answers at once; the address
of the end-to-end scenario parses into its three parts and every other address
is rejected (among them `http://127.0.0.1:32768wd/hub`, which `url.Parse` rejects
for its non-numeric port). -/
def sampleDeps : Deps where
  NewPort := sampleNewPort
  wait := fun _ _ => none
  Parse := fun s =>
    if s = "http://127.0.0.1:32768/wd/hub" then some ⟨"http", "127.0.0.1:32768", "/wd/hub"⟩
    else none

/-- The service of the end-to-end scenario. -/
def sampleService : Browser :=
  { Image := .str "browser:1.0", Port := "4444", Path := "/wd/hub",
    ShmSize := 536870912, Privileged := false }

/-- The same service asking for another shared-memory size and privilege level. -/
def otherService : Browser :=
  { Image := .str "browser:1.0", Port := "4444", Path := "/wd/hub",
    ShmSize := 1073741824, Privileged := true }

/-- The runtime reports the single binding 127.0.0.1 / 32768. -/
def sampleDocker : Docker :=
  { Client := sampleClient [("4444/tcp", [⟨"127.0.0.1", "32768"⟩])] none
    Service := sampleService }

end service

/-! ## Theorems: package ensure -/

namespace ensure

/-- C5: for every inner handler, writer and request, `Post next` behaves exactly
as one invocation of `next` on the same writer and request (it adds no call on
the writer) when the method is `POST`; for any other method it performs the
calls of `http.Error` with status 405 and message `Method not allowed` on the
writer and its result does not depend on `next` (the inner handler is not
invoked). -/
theorem Post_guard {σ : Type} (next : HandlerFunc σ) (w : ResponseWriter) (r : Request) (s : σ) :
    (r.Method = "POST" → Post next w r s = next w r s) ∧
    (r.Method ≠ "POST" → Post next w r s =
      (⟨w.IsCloseNotifier, w.Calls ++
          [ WriterCall.setHeader "Content-Type" "text/plain; charset=utf-8",
            WriterCall.setHeader "X-Content-Type-Options" "nosniff",
            WriterCall.writeHeader 405,
            WriterCall.write "Method not allowed\n" ]⟩, s)) := by
  constructor
  · intro h
    simp [Post, MethodPost, h]
  · intro h
    simp [Post, MethodPost, h, httpError, StatusMethodNotAllowed]

/-- Witness of C5: a POST reaches the counting handler once, a GET never does
and is answered with 405. -/
theorem Post_guard_witness :
    Post countingHandler plainWriter ⟨"POST", "/session"⟩ 0 = (plainWriter, 1) ∧
    Post countingHandler plainWriter ⟨"GET", "/session"⟩ 0 =
      (⟨false,
          [ WriterCall.setHeader "Content-Type" "text/plain; charset=utf-8",
            WriterCall.setHeader "X-Content-Type-Options" "nosniff",
            WriterCall.writeHeader 405,
            WriterCall.write "Method not allowed\n" ]⟩, 0) :=
  ⟨(Post_guard countingHandler plainWriter ⟨"POST", "/session"⟩ 0).1 rfl,
   (Post_guard countingHandler plainWriter ⟨"GET", "/session"⟩ 0).2 (by decide)⟩

/-- C6: for every inner handler, writer and request (whatever its method),
`CloseNotifier next` performs the calls of `http.Error` with status 500 and
message `unable to handle client close notifications` on a writer without
close-notification support, with a result that does not depend on `next` (the
inner handler is not invoked); on a writer with that support it behaves exactly
as one invocation of `next` on the same writer and request. -/
theorem CloseNotifier_guard {σ : Type} (next : HandlerFunc σ) (w : ResponseWriter)
    (r : Request) (s : σ) :
    (w.IsCloseNotifier = false → CloseNotifier next w r s =
      (⟨w.IsCloseNotifier, w.Calls ++
          [ WriterCall.setHeader "Content-Type" "text/plain; charset=utf-8",
            WriterCall.setHeader "X-Content-Type-Options" "nosniff",
            WriterCall.writeHeader 500,
            WriterCall.write "unable to handle client close notifications\n" ]⟩, s)) ∧
    (w.IsCloseNotifier = true → CloseNotifier next w r s = next w r s) := by
  constructor
  · intro h
    simp [CloseNotifier, h, httpError, StatusInternalServerError]
  · intro h
    simp [CloseNotifier, h]

/-- Witness of C6: without the capability the counting handler is never reached
and the answer is 500; with it a GET reaches the handler once. -/
theorem CloseNotifier_guard_witness :
    CloseNotifier countingHandler plainWriter ⟨"POST", "/session"⟩ 0 =
      (⟨false,
          [ WriterCall.setHeader "Content-Type" "text/plain; charset=utf-8",
            WriterCall.setHeader "X-Content-Type-Options" "nosniff",
            WriterCall.writeHeader 500,
            WriterCall.write "unable to handle client close notifications\n" ]⟩, 0) ∧
    CloseNotifier countingHandler notifyingWriter ⟨"GET", "/session"⟩ 0 = (notifyingWriter, 1) :=
  ⟨(CloseNotifier_guard countingHandler plainWriter ⟨"POST", "/session"⟩ 0).1 rfl,
   (CloseNotifier_guard countingHandler notifyingWriter ⟨"GET", "/session"⟩ 0).2 rfl⟩

end ensure

/-! ## Theorems: package service -/

namespace service

/-- Every create request of a run is the request of lines 31-45 for the string
image of the service and the port that `nat.NewPort` resolved. -/
theorem create_mem_run (deps : Deps) (docker : Docker) (config : Config)
    (hostConfig : HostConfig) (networkingConfig : NetworkingConfig) (name : String)
    (hmem : Call.ContainerCreate config hostConfig networkingConfig name ∈
      (StartWithCancel deps docker).2) :
    ∃ image port, deps.NewPort "tcp" docker.Service.Port = .ok port ∧
      docker.Service.Image = .str image ∧ config = createConfig image port ∧
      hostConfig = createHostConfig port ∧ networkingConfig = ⟨[]⟩ ∧ name = "" := by
  unfold StartWithCancel at hmem
  cases hp : deps.NewPort "tcp" docker.Service.Port with
  | error e => simp [hp] at hmem
  | ok port =>
    cases hi : docker.Service.Image with
    | str image =>
      simp only [hp, hi] at hmem
      refine ⟨image, port, rfl, rfl, ?_⟩
      repeat' split at hmem
      all_goals simp_all [createConfig, createHostConfig]
    | _ => simp [hp, hi] at hmem

/-- A run that returns a closure went through all five steps: the closure holds
the client and the identifier the create request was answered with, the error is
nil and the run is create, start, inspect, wait. -/
theorem closure_of_run (deps : Deps) (docker : Docker) (u : Option URL) (cancel : Cancel)
    (err : Option Error) (tr : List Call)
    (hrun : StartWithCancel deps docker = (.ret u (some cancel) err, tr)) :
    ∃ image port resp host, deps.NewPort "tcp" docker.Service.Port = .ok port ∧
      docker.Service.Image = .str image ∧
      docker.Client.ContainerCreate (createConfig image port) (createHostConfig port)
        { EndpointsConfig := [] } "" = .ok resp ∧
      cancel = ⟨docker.Client, resp.ID⟩ ∧ err = none ∧ u = deps.Parse host ∧
      tr = [ createCall image port, .ContainerStart resp.ID, .ContainerInspect resp.ID,
             .wait host (10 * Second) ] := by
  unfold StartWithCancel at hrun
  cases hp : deps.NewPort "tcp" docker.Service.Port with
  | error e => simp [hp] at hrun
  | ok port =>
    cases hi : docker.Service.Image with
    | str image =>
      simp only [hp, hi] at hrun
      cases hc : docker.Client.ContainerCreate (createConfig image port) (createHostConfig port)
          { EndpointsConfig := [] } "" with
      | error e =>
        simp only [createConfig, createHostConfig] at hc
        simp [hc] at hrun
      | ok resp =>
        refine ⟨image, port, resp, ?_⟩
        simp only [createConfig, createHostConfig] at hc
        simp only [hc] at hrun
        repeat' split at hrun
        all_goals simp_all [createCall, createConfig, createHostConfig]
        obtain ⟨⟨hu, -, -⟩, htr⟩ := hrun
        exact ⟨_, hu.symm, htr.symm⟩
    | _ => simp [hp, hi] at hrun

/-- C1 fails as stated: with a runtime whose stop call returns an error, the
teardown issues the stop request and nothing else; no remove request follows. -/
theorem stop_error_skips_remove :
    (sampleClient [] (some "cannot stop")).ContainerStop "c1" none = some "cannot stop" ∧
    stop (sampleClient [] (some "cannot stop")) "c1" = [Call.ContainerStop "c1" none] ∧
    ¬ ∃ options, Call.ContainerRemove "c1" options ∈ stop (sampleClient [] (some "cannot stop")) "c1" := by
  refine ⟨rfl, rfl, ?_⟩
  rintro ⟨options, h⟩
  have hs : stop (sampleClient [] (some "cannot stop")) "c1" = [Call.ContainerStop "c1" none] := rfl
  rw [hs] at h
  simp at h

/-- C1 as amended: for every runtime and container id, when the stop call
succeeds the teardown issues exactly the stop request, the wait request and one
forced remove request for that id, in that order; when the stop call returns an
error the teardown issues the stop request only, hence neither a wait nor a
remove request. -/
theorem stop_removes_only_after_stop_succeeds (cli : Client) (id : String) :
    (cli.ContainerStop id none = none →
      stop cli id =
        [ Call.ContainerStop id none, Call.ContainerWait id,
          Call.ContainerRemove id ⟨false, false, true⟩ ]) ∧
    (∀ err, cli.ContainerStop id none = some err →
      stop cli id = [Call.ContainerStop id none]) := by
  constructor
  · intro h
    unfold stop
    rw [h]
    cases cli.ContainerRemove id ⟨false, false, true⟩ <;> rfl
  · intro err h
    unfold stop
    rw [h]

/-- Witness of C1 as amended: a runtime whose stop succeeds, and one whose stop fails. -/
theorem stop_removes_only_after_stop_succeeds_witness :
    stop (sampleClient [] none) "c1" =
      [ Call.ContainerStop "c1" none, Call.ContainerWait "c1",
        Call.ContainerRemove "c1" ⟨false, false, true⟩ ] ∧
    stop (sampleClient [] (some "cannot stop")) "c1" = [Call.ContainerStop "c1" none] :=
  ⟨(stop_removes_only_after_stop_succeeds (sampleClient [] none) "c1").1 rfl,
   (stop_removes_only_after_stop_succeeds (sampleClient [] (some "cannot stop")) "c1").2
      "cannot stop" rfl⟩

/-- C3: when port resolution, create, start and inspect succeed and the
inspected port map has no entry for the resolved port, or an entry with an empty
list, or an entry with two or more bindings, `StartWithCancel` returns a non-nil
error (with a nil URL and a nil closure) and the run contains no call of the
readiness waiter. -/
theorem wrong_binding_count_fails_before_wait (deps : Deps) (docker : Docker) (port : Port)
    (image : String) (resp : ContainerCreateResponse) (stat : ContainerJSON)
    (settings : NetworkSettings)
    (hport : deps.NewPort "tcp" docker.Service.Port = .ok port)
    (himage : docker.Service.Image = .str image)
    (hcreate : docker.Client.ContainerCreate (createConfig image port) (createHostConfig port)
      { EndpointsConfig := [] } "" = .ok resp)
    (hstart : docker.Client.ContainerStart resp.ID = none)
    (hinspect : docker.Client.ContainerInspect resp.ID = .ok stat)
    (hsettings : stat.NetworkSettings = some settings)
    (hbindings : settings.Ports.lookup port = none ∨ settings.Ports.lookup port = some [] ∨
      ∃ bindings, settings.Ports.lookup port = some bindings ∧ 2 ≤ bindings.length) :
    (∃ err, (StartWithCancel deps docker).1 = .ret none none (some err)) ∧
    ∀ u t, Call.wait u t ∉ (StartWithCancel deps docker).2 := by
  unfold StartWithCancel
  simp only [createConfig, createHostConfig] at hcreate
  simp only [hport, himage, hcreate, hstart, hinspect, hsettings]
  rcases hbindings with h | h | ⟨bs, h, hl⟩
  · simp [h]
  · simp [h]
  · have hne : bs.length ≠ 1 := by omega
    simp [h, hne]

/-- Witness of C3: the runtime reports two bindings for the resolved port. -/
theorem wrong_binding_count_fails_before_wait_witness :
    (∃ err, (StartWithCancel sampleDeps
        ⟨sampleClient [("4444/tcp", [⟨"127.0.0.1", "32768"⟩, ⟨"127.0.0.1", "32769"⟩])] none,
          sampleService⟩).1 = .ret none none (some err)) ∧
    ∀ u t, Call.wait u t ∉ (StartWithCancel sampleDeps
        ⟨sampleClient [("4444/tcp", [⟨"127.0.0.1", "32768"⟩, ⟨"127.0.0.1", "32769"⟩])] none,
          sampleService⟩).2 :=
  wrong_binding_count_fails_before_wait sampleDeps
    ⟨sampleClient [("4444/tcp", [⟨"127.0.0.1", "32768"⟩, ⟨"127.0.0.1", "32769"⟩])] none,
      sampleService⟩
    "4444/tcp" "browser:1.0" ⟨"c1", []⟩
    ⟨some ⟨[("4444/tcp", [⟨"127.0.0.1", "32768"⟩, ⟨"127.0.0.1", "32769"⟩])]⟩⟩
    ⟨[("4444/tcp", [⟨"127.0.0.1", "32768"⟩, ⟨"127.0.0.1", "32769"⟩])]⟩
    rfl rfl rfl rfl rfl rfl
    (Or.inr (Or.inr ⟨[⟨"127.0.0.1", "32768"⟩, ⟨"127.0.0.1", "32769"⟩], rfl, by decide⟩))

/-- C4 fails as stated: with the health path `wd/hub` (no leading slash) and the
single binding 127.0.0.1 / 32768, every step succeeds and the waiter answers on
the address `http://127.0.0.1:32768wd/hub`; `url.Parse` rejects that address
(the port part `32768wd` is not a number), line 82 drops the parse error, and
`StartWithCancel` returns a nil URL together with the closure and a nil error. -/
theorem unparsable_address_gives_nil_url :
    sampleDeps.wait "http://127.0.0.1:32768wd/hub" (10 * Second) = none ∧
    sampleDeps.Parse "http://127.0.0.1:32768wd/hub" = none ∧
    StartWithCancel sampleDeps ⟨sampleDocker.Client, { sampleService with Path := "wd/hub" }⟩ =
      (.ret none (some ⟨sampleDocker.Client, "c1"⟩) none,
       [ createCall "browser:1.0" "4444/tcp", .ContainerStart "c1", .ContainerInspect "c1",
         .wait "http://127.0.0.1:32768wd/hub" (10 * Second) ]) :=
  ⟨rfl, rfl, rfl⟩

/-- C4 as amended: when port resolution, create, start and inspect succeed,
inspection reports exactly the one binding `hostIP` / `hostPort` for the resolved
port and the readiness waiter succeeds on the address
`http://<hostIP>:<hostPort><path>`, `StartWithCancel` returns a nil error, a
closure bound to the created container, and as URL whatever `url.Parse` yields
for exactly that address (the parsed URL when the address is accepted, nil when
it is rejected); the only waiter call of the run carries exactly that address
string. -/
theorem single_binding_returns_parsed_address (deps : Deps) (docker : Docker) (port : Port)
    (image : String) (resp : ContainerCreateResponse) (stat : ContainerJSON)
    (settings : NetworkSettings) (hostIP hostPort : String)
    (hport : deps.NewPort "tcp" docker.Service.Port = .ok port)
    (himage : docker.Service.Image = .str image)
    (hcreate : docker.Client.ContainerCreate (createConfig image port) (createHostConfig port)
      { EndpointsConfig := [] } "" = .ok resp)
    (hstart : docker.Client.ContainerStart resp.ID = none)
    (hinspect : docker.Client.ContainerInspect resp.ID = .ok stat)
    (hsettings : stat.NetworkSettings = some settings)
    (hbinding : settings.Ports.lookup port = some [⟨hostIP, hostPort⟩])
    (hwait : deps.wait ("http://" ++ hostIP ++ ":" ++ hostPort ++ docker.Service.Path)
      (10 * Second) = none) :
    StartWithCancel deps docker =
      (.ret (deps.Parse ("http://" ++ hostIP ++ ":" ++ hostPort ++ docker.Service.Path))
         (some ⟨docker.Client, resp.ID⟩) none,
       [ createCall image port, .ContainerStart resp.ID, .ContainerInspect resp.ID,
         .wait ("http://" ++ hostIP ++ ":" ++ hostPort ++ docker.Service.Path) (10 * Second) ]) := by
  unfold StartWithCancel
  simp only [createConfig, createHostConfig] at hcreate
  simp only [hport, himage, hcreate, hstart, hinspect, hsettings, hbinding]
  simp [hwait, createCall, createConfig, createHostConfig]

/-- Witness of C4 as amended: the end-to-end scenario, binding 127.0.0.1 / 32768
and path `/wd/hub`; the service names the port by its number 4444, which
`nat.NewPort` resolves to the key `4444/tcp`. -/
theorem single_binding_returns_parsed_address_witness :
    StartWithCancel sampleDeps sampleDocker =
      (.ret (some ⟨"http", "127.0.0.1:32768", "/wd/hub"⟩) (some ⟨sampleDocker.Client, "c1"⟩) none,
       [ createCall "browser:1.0" "4444/tcp", .ContainerStart "c1", .ContainerInspect "c1",
         .wait "http://127.0.0.1:32768/wd/hub" (10 * Second) ]) :=
  single_binding_returns_parsed_address sampleDeps sampleDocker "4444/tcp" "browser:1.0"
    ⟨"c1", []⟩
    ⟨some ⟨[("4444/tcp", [⟨"127.0.0.1", "32768"⟩])]⟩⟩ ⟨[("4444/tcp", [⟨"127.0.0.1", "32768"⟩])]⟩
    "127.0.0.1" "32768" rfl rfl rfl rfl rfl rfl rfl rfl

/-- C2 fails as stated: container `c1` is created and started, inspection
reports no binding for the resolved port, and `StartWithCancel` returns the error
with a nil closure: the caller receives nothing to release the container with. -/
theorem failure_after_start_returns_no_closure :
    StartWithCancel sampleDeps ⟨sampleClient [] none, sampleService⟩ =
      (.ret none none (some "no bingings available for 4444/tcp...\n"),
       [ createCall "browser:1.0" "4444/tcp", .ContainerStart "c1", .ContainerInspect "c1" ]) ∧
    ¬ ∃ u cancel err, (StartWithCancel sampleDeps ⟨sampleClient [] none, sampleService⟩).1 =
      .ret u (some cancel) err := by
  refine ⟨rfl, ?_⟩
  rintro ⟨u, cancel, err, h⟩
  have hrun : (StartWithCancel sampleDeps ⟨sampleClient [] none, sampleService⟩).1 =
      .ret none none (some "no bingings available for 4444/tcp...\n") := rfl
  rw [hrun] at h
  simp at h

/-- C2 as amended: when the container was created and started and a later step
fails (the inspected port map has no entry for the resolved port or an entry
whose number of bindings is not one, or there is exactly one binding and the
readiness wait returns an error), `StartWithCancel` returns an error with a nil
URL and a nil closure, and its run consists of the create, start and inspect
requests followed by at most the waiter call: it issues no stop and no remove
request, so the container is left running. -/
theorem failure_after_start_leaves_container (deps : Deps) (docker : Docker) (port : Port)
    (image : String) (resp : ContainerCreateResponse) (stat : ContainerJSON)
    (settings : NetworkSettings)
    (hport : deps.NewPort "tcp" docker.Service.Port = .ok port)
    (himage : docker.Service.Image = .str image)
    (hcreate : docker.Client.ContainerCreate (createConfig image port) (createHostConfig port)
      { EndpointsConfig := [] } "" = .ok resp)
    (hstart : docker.Client.ContainerStart resp.ID = none)
    (hinspect : docker.Client.ContainerInspect resp.ID = .ok stat)
    (hsettings : stat.NetworkSettings = some settings)
    (hfail : settings.Ports.lookup port = none ∨
      (∃ bindings, settings.Ports.lookup port = some bindings ∧ bindings.length ≠ 1) ∨
      (∃ addr err, settings.Ports.lookup port = some [addr] ∧
        deps.wait ("http://" ++ addr.HostIP ++ ":" ++ addr.HostPort ++ docker.Service.Path)
          (10 * Second) = some err)) :
    ∃ err rest, StartWithCancel deps docker =
        (.ret none none (some err),
         [ createCall image port, .ContainerStart resp.ID, .ContainerInspect resp.ID ] ++ rest) ∧
      (rest = [] ∨ ∃ u t, rest = [Call.wait u t]) := by
  unfold StartWithCancel
  simp only [createConfig, createHostConfig] at hcreate
  simp only [hport, himage, hcreate, hstart, hinspect, hsettings]
  rcases hfail with h | ⟨bs, h, hne⟩ | ⟨addr, err, h, hw⟩
  · exact ⟨"no bingings available for " ++ port ++ "...\n", [],
      by simp [h, createCall, createConfig, createHostConfig], Or.inl rfl⟩
  · exact ⟨"error: wrong number of port bindings", [],
      by simp [h, hne, createCall, createConfig, createHostConfig], Or.inl rfl⟩
  · exact ⟨err,
      [Call.wait ("http://" ++ addr.HostIP ++ ":" ++ addr.HostPort ++ docker.Service.Path)
        (10 * Second)],
      by simp [h, hw, createCall, createConfig, createHostConfig], Or.inr ⟨_, _, rfl⟩⟩

/-- Witness of C2 as amended: the inspected port map has no entry for the port. -/
theorem failure_after_start_leaves_container_witness :
    ∃ err rest, StartWithCancel sampleDeps ⟨sampleClient [] none, sampleService⟩ =
        (.ret none none (some err),
         [ createCall "browser:1.0" "4444/tcp", .ContainerStart "c1", .ContainerInspect "c1" ]
           ++ rest) ∧
      (rest = [] ∨ ∃ u t, rest = [Call.wait u t]) :=
  failure_after_start_leaves_container sampleDeps ⟨sampleClient [] none, sampleService⟩
    "4444/tcp" "browser:1.0" ⟨"c1", []⟩ ⟨some ⟨[]⟩⟩ ⟨[]⟩ rfl rfl rfl rfl rfl rfl (Or.inl rfl)

/-- C7: for every service whose port resolves, the run of `StartWithCancel`
contains at most one create request, exactly one when the image is a string;
every create request in the run carries the image of the service, the exposed
ports consisting of the resolved port alone, auto-remove set, a port-binding map
with the single entry resolved port ↦ one binding with host IP `127.0.0.1` and
empty host port, and no endpoint configuration. -/
theorem create_request_shape (deps : Deps) (docker : Docker) (port : Port)
    (hport : deps.NewPort "tcp" docker.Service.Port = .ok port) :
    (StartWithCancel deps docker).2.countP Call.isCreate ≤ 1 ∧
    (∀ image, docker.Service.Image = .str image →
      (StartWithCancel deps docker).2.countP Call.isCreate = 1) ∧
    (∀ config hostConfig networkingConfig name,
      Call.ContainerCreate config hostConfig networkingConfig name ∈ (StartWithCancel deps docker).2 →
        docker.Service.Image = .str config.Image ∧
        config.ExposedPorts = [port] ∧
        hostConfig.AutoRemove = true ∧
        hostConfig.PortBindings = [(port, [⟨"127.0.0.1", ""⟩])] ∧
        networkingConfig.EndpointsConfig = []) := by
  unfold StartWithCancel
  simp only [hport]
  refine ⟨?_, ?_, ?_⟩
  · repeat' split
    all_goals simp [Call.isCreate]
  · intro image himage
    simp only [himage]
    repeat' split
    all_goals simp [Call.isCreate]
  · intro config hostConfig networkingConfig name
    repeat' split
    all_goals simp_all

/-- Witness of C7: the end-to-end scenario issues one create request, the one written out. -/
theorem create_request_shape_witness :
    (StartWithCancel sampleDeps sampleDocker).2.countP Call.isCreate ≤ 1 ∧
    (∀ image, sampleDocker.Service.Image = .str image →
      (StartWithCancel sampleDeps sampleDocker).2.countP Call.isCreate = 1) ∧
    (∀ config hostConfig networkingConfig name,
      Call.ContainerCreate config hostConfig networkingConfig name ∈
          (StartWithCancel sampleDeps sampleDocker).2 →
        sampleDocker.Service.Image = .str config.Image ∧
        config.ExposedPorts = ["4444/tcp"] ∧
        hostConfig.AutoRemove = true ∧
        hostConfig.PortBindings = [("4444/tcp", [⟨"127.0.0.1", ""⟩])] ∧
        networkingConfig.EndpointsConfig = []) :=
  create_request_shape sampleDeps sampleDocker "4444/tcp" rfl

/-- C8 fails as stated: two services that differ in shared-memory size and in
privilege level (512 MiB, unprivileged and 1 GiB, privileged) lead to the same
run, whose create request asks for 268435456 bytes and privileged mode, the
values of neither service. -/
theorem create_request_ignores_service_constraints :
    sampleService.ShmSize ≠ otherService.ShmSize ∧
    sampleService.Privileged ≠ otherService.Privileged ∧
    (StartWithCancel sampleDeps ⟨sampleDocker.Client, sampleService⟩).2 =
      (StartWithCancel sampleDeps ⟨sampleDocker.Client, otherService⟩).2 ∧
    (StartWithCancel sampleDeps ⟨sampleDocker.Client, sampleService⟩).2.head? =
      some (Call.ContainerCreate ⟨"localhost", "browser:1.0", ["4444/tcp"]⟩
        ⟨true, [("4444/tcp", [⟨"127.0.0.1", ""⟩])], 268435456, true⟩ ⟨[]⟩ "") := by
  decide

/-- C8 as amended: the shared-memory size and the privileged flag of the create
request are the constants 268435456 and true, whatever the service says; two
`Docker` values with the same client and the same image, port and path (differing
at most in shared-memory size and privilege level) give the same result and the
same run. -/
theorem create_request_constants (deps : Deps) (a b : Docker)
    (hclient : a.Client = b.Client)
    (himage : a.Service.Image = b.Service.Image)
    (hport : a.Service.Port = b.Service.Port)
    (hpath : a.Service.Path = b.Service.Path) :
    StartWithCancel deps a = StartWithCancel deps b ∧
    ∀ config hostConfig networkingConfig name,
      Call.ContainerCreate config hostConfig networkingConfig name ∈ (StartWithCancel deps a).2 →
        hostConfig.ShmSize = 268435456 ∧ hostConfig.Privileged = true := by
  constructor
  · simp only [StartWithCancel, hclient, himage, hport, hpath]
  · intro config hostConfig networkingConfig name hmem
    obtain ⟨image, port, -, -, -, rfl, -, -⟩ := create_mem_run deps a _ _ _ _ hmem
    exact ⟨rfl, rfl⟩

/-- Witness of C8 as amended: the two sample services on the same runtime. -/
theorem create_request_constants_witness :
    StartWithCancel sampleDeps ⟨sampleDocker.Client, sampleService⟩ =
      StartWithCancel sampleDeps ⟨sampleDocker.Client, otherService⟩ ∧
    ∀ config hostConfig networkingConfig name,
      Call.ContainerCreate config hostConfig networkingConfig name ∈
          (StartWithCancel sampleDeps ⟨sampleDocker.Client, sampleService⟩).2 →
        hostConfig.ShmSize = 268435456 ∧ hostConfig.Privileged = true :=
  create_request_constants sampleDeps ⟨sampleDocker.Client, sampleService⟩
    ⟨sampleDocker.Client, otherService⟩ rfl rfl rfl rfl

/-- C10: for a run of `StartWithCancel` that returns a closure and a nil error
and whose create request was answered with identifier `resp.ID`, calling the
closure when the runtime's stop on that identifier succeeds issues exactly
stop(id, no timeout), wait(id), remove(id, force) in that order, each once, on
that identifier, whatever wait and remove answer; the closure yields nothing but
this list of calls (no error value, no further remove). -/
theorem cancel_stops_waits_removes (deps : Deps) (docker : Docker) (u : Option URL)
    (cancel : Cancel) (tr : List Call) (config : Config) (hostConfig : HostConfig)
    (networkingConfig : NetworkingConfig) (name : String) (resp : ContainerCreateResponse)
    (hrun : StartWithCancel deps docker = (.ret u (some cancel) none, tr))
    (hmem : Call.ContainerCreate config hostConfig networkingConfig name ∈ tr)
    (hresp : docker.Client.ContainerCreate config hostConfig networkingConfig name = .ok resp)
    (hstop : docker.Client.ContainerStop resp.ID none = none) :
    cancel.call =
      [ Call.ContainerStop resp.ID none, Call.ContainerWait resp.ID,
        Call.ContainerRemove resp.ID ⟨false, false, true⟩ ] := by
  have key : cancel = ⟨docker.Client, resp.ID⟩ := by
    obtain ⟨image, port, resp0, host, -, -, hcreate, hcancel, -, -, htr⟩ :=
      closure_of_run deps docker u cancel none tr hrun
    subst htr
    simp only [createCall, List.mem_cons, Call.ContainerCreate.injEq, List.mem_singleton,
      reduceCtorEq, or_false, List.not_mem_nil] at hmem
    obtain ⟨rfl, rfl, rfl, rfl⟩ := hmem
    rw [hcreate] at hresp
    cases hresp
    exact hcancel
  subst key
  unfold Cancel.call stop
  simp only [hstop]
  cases docker.Client.ContainerRemove resp.ID ⟨false, false, true⟩ <;> rfl

/-- Witness of C10: the closure returned in the end-to-end scenario. -/
theorem cancel_stops_waits_removes_witness :
    Cancel.call ⟨sampleDocker.Client, "c1"⟩ =
      [ Call.ContainerStop "c1" none, Call.ContainerWait "c1",
        Call.ContainerRemove "c1" ⟨false, false, true⟩ ] :=
  cancel_stops_waits_removes sampleDeps sampleDocker
    (some ⟨"http", "127.0.0.1:32768", "/wd/hub"⟩) ⟨sampleDocker.Client, "c1"⟩
    [ createCall "browser:1.0" "4444/tcp", .ContainerStart "c1", .ContainerInspect "c1",
      .wait "http://127.0.0.1:32768/wd/hub" (10 * Second) ]
    (createConfig "browser:1.0" "4444/tcp") (createHostConfig "4444/tcp") ⟨[]⟩ ""
    ⟨"c1", []⟩ rfl (by simp [createCall]) rfl rfl

/-- C9: the run of `StartWithCancel` is always an initial part of the sequence
create, start, inspect, wait (start and inspect on one identifier), so the steps
come in that order and each at most once; a failing step ends the call, which
returns that step's error value as it is, with a nil URL and a nil closure, and
the run ends with the failing call: nothing for a port that does not resolve,
create alone when create fails, create and start when start fails, create, start
and inspect when inspect fails, and all four when the wait fails. -/
theorem steps_in_order_until_first_failure (deps : Deps) (docker : Docker) :
    (∃ image port id host, (StartWithCancel deps docker).2 <+:
      [ createCall image port, .ContainerStart id, .ContainerInspect id,
        .wait host (10 * Second) ]) ∧
    (∀ err, deps.NewPort "tcp" docker.Service.Port = .error err →
      StartWithCancel deps docker = (.ret none none (some err), [])) ∧
    (∀ port image err, deps.NewPort "tcp" docker.Service.Port = .ok port →
      docker.Service.Image = .str image →
      docker.Client.ContainerCreate (createConfig image port) (createHostConfig port)
        { EndpointsConfig := [] } "" = .error err →
      StartWithCancel deps docker = (.ret none none (some err), [createCall image port])) ∧
    (∀ port image resp err, deps.NewPort "tcp" docker.Service.Port = .ok port →
      docker.Service.Image = .str image →
      docker.Client.ContainerCreate (createConfig image port) (createHostConfig port)
        { EndpointsConfig := [] } "" = .ok resp →
      docker.Client.ContainerStart resp.ID = some err →
      StartWithCancel deps docker =
        (.ret none none (some err), [createCall image port, .ContainerStart resp.ID])) ∧
    (∀ port image resp err, deps.NewPort "tcp" docker.Service.Port = .ok port →
      docker.Service.Image = .str image →
      docker.Client.ContainerCreate (createConfig image port) (createHostConfig port)
        { EndpointsConfig := [] } "" = .ok resp →
      docker.Client.ContainerStart resp.ID = none →
      docker.Client.ContainerInspect resp.ID = .error err →
      StartWithCancel deps docker =
        (.ret none none (some err),
         [createCall image port, .ContainerStart resp.ID, .ContainerInspect resp.ID])) ∧
    (∀ port image resp stat settings addr err,
      deps.NewPort "tcp" docker.Service.Port = .ok port →
      docker.Service.Image = .str image →
      docker.Client.ContainerCreate (createConfig image port) (createHostConfig port)
        { EndpointsConfig := [] } "" = .ok resp →
      docker.Client.ContainerStart resp.ID = none →
      docker.Client.ContainerInspect resp.ID = .ok stat →
      stat.NetworkSettings = some settings →
      settings.Ports.lookup port = some [addr] →
      deps.wait ("http://" ++ addr.HostIP ++ ":" ++ addr.HostPort ++ docker.Service.Path)
        (10 * Second) = some err →
      StartWithCancel deps docker =
        (.ret none none (some err),
         [ createCall image port, .ContainerStart resp.ID, .ContainerInspect resp.ID,
           .wait ("http://" ++ addr.HostIP ++ ":" ++ addr.HostPort ++ docker.Service.Path)
             (10 * Second) ])) := by
  refine ⟨?_, ?_, ?_, ?_, ?_, ?_⟩
  · unfold StartWithCancel
    cases hp : deps.NewPort "tcp" docker.Service.Port with
    | error e => exact ⟨"", "", "", "", by simp⟩
    | ok port =>
      cases hi : docker.Service.Image with
      | str image =>
        simp only []
        cases hc : docker.Client.ContainerCreate
            { Hostname := "localhost", Image := image, ExposedPorts := [port] }
            { AutoRemove := true
              PortBindings := [(port, [{ HostIP := "127.0.0.1", HostPort := "" }])]
              ShmSize := 268435456
              Privileged := true }
            { EndpointsConfig := [] } "" with
        | error e =>
          exact ⟨image, port, "", "", by simp [createCall, createConfig, createHostConfig]⟩
        | ok resp =>
          simp only []
          repeat' split
          all_goals
            first
            | exact ⟨image, port, resp.ID, "", _, rfl⟩
            | exact ⟨image, port, resp.ID, _, _, rfl⟩
      | _ => exact ⟨"", "", "", "", by simp⟩
  · intro err h
    simp [StartWithCancel, h]
  · intro port image err hp hi hc
    simp only [createConfig, createHostConfig] at hc
    simp [StartWithCancel, hp, hi, hc, createCall, createConfig, createHostConfig]
  · intro port image resp err hp hi hc hs
    simp only [createConfig, createHostConfig] at hc
    simp [StartWithCancel, hp, hi, hc, hs, createCall, createConfig, createHostConfig]
  · intro port image resp err hp hi hc hs hin
    simp only [createConfig, createHostConfig] at hc
    simp [StartWithCancel, hp, hi, hc, hs, hin, createCall, createConfig, createHostConfig]
  · intro port image resp stat settings addr err hp hi hc hs hin hset hl hw
    simp only [createConfig, createHostConfig] at hc
    simp [StartWithCancel, hp, hi, hc, hs, hin, hset, hl, hw, createCall, createConfig,
      createHostConfig]

/-- Witness of C9: a port string that does not resolve ends the call before any
request; a runtime that refuses to create ends it after the create request. -/
theorem steps_in_order_until_first_failure_witness :
    StartWithCancel sampleDeps ⟨sampleDocker.Client, { sampleService with Port := "http" }⟩ =
      (.ret none none (some "invalid port"), []) ∧
    StartWithCancel sampleDeps ⟨refusingClient, sampleService⟩ =
      (.ret none none (some "No such image"), [createCall "browser:1.0" "4444/tcp"]) :=
  ⟨(steps_in_order_until_first_failure sampleDeps
      ⟨sampleDocker.Client, { sampleService with Port := "http" }⟩).2.1 "invalid port" rfl,
   (steps_in_order_until_first_failure sampleDeps ⟨refusingClient, sampleService⟩).2.2.1
      "4444/tcp" "browser:1.0" "No such image" rfl rfl rfl⟩

end service

end Selenoid
